import Mathlib

/-!
Verification of the CSV-enrichment repository's deterministic core.

This file gives a shallow embedding, in Lean, of the parts of the
repository that its specification makes claims about:

* the deterministic enrichment fallback
  (`csv_enricher/agents/csv_enrichment_crew.py`, `_apply_enrichments_fallback`),
* the task lifecycle tracker (`csv_enricher/utils/progress_tracker.py`),
* the job runner and HTTP result boundary (`csv_enricher/backend/main.py`),
* the retry loop of the delegated path
  (`csv_enricher/data/csv_enrichment_crew.py`, `run`).

Modelling conventions:

* A pandas DataFrame cell is `Option String`; `none` is a missing value
  (`NaN`), mirroring `pd.isna`.  The fallback touches exactly four columns
  of the frame — `Cluster ID`, `Product Title`, `Category ID`,
  `Category Label` — which are modelled as the `Cells` structure; every
  other cell of a row is carried opaquely in `Row.extra`.  The flag
  `Table.hasCluster` records whether the `Cluster ID` column is present at
  all; when it is absent, `df.groupby` raises a `KeyError` before any
  mutation, which is the exception source the error-handling claims need.
* The external CSV-search tool together with the regex extraction of
  `Category ID` / `Category Label` from its free-text answer is an opaque
  collaborator.  It is a parameter `lookup : Lookup`: `lookup title = none`
  models the tool raising an exception for that query, and
  `lookup title = some (idMatch, labelMatch)` models a returned text whose
  two regexes matched (`some s`) or did not match (`none`).
* Python floats are modelled as `ℚ`; file contents as `String`.
-/

set_option autoImplicit false

/-- The four columns of a row that the fallback reads or writes. -/
structure Cells where
  cluster : Option String
  title : Option String
  catId : Option String
  catLabel : Option String
  deriving DecidableEq

/-- One row of the table: the four named cells plus all remaining cells. -/
structure Row where
  cells : Cells
  extra : List (Option String)
  deriving DecidableEq

/-- The DataFrame under enrichment.  `hasCluster = false` models an input
file without a `Cluster ID` column. -/
structure Table where
  hasCluster : Bool
  rows : List Row
  deriving DecidableEq

/-- Result of one CSV-search-tool call followed by the two regex matches;
`none` models the tool call raising an exception. -/
abbrev Lookup := Option String → Option (Option String × Option String)

/-- The group of `df.groupby('Cluster ID')` for key `c`: the rows whose
`Cluster ID` equals `c`, in original row order (pandas preserves intra-group
order and drops rows whose key is `NaN`). -/
def groupOf (cs : List Cells) (c : String) : List Cells :=
  cs.filter (fun x => x.cluster = some c)

/-- Pass 1 of `_apply_enrichments_fallback` (group propagation), as the new
four-cell record of one row.  Mirrors the source: groups of at most one row
are skipped; `category_rows = group[~group['Category Label'].isna()]` picks
the rows with a non-missing `Category Label`; `category_rows.iloc[0]` is the
first of them in row order; its `Category ID` and `Category Label` are
written into every cell of the group that is currently missing.  The write
order (per row: `Category ID` then `Category Label`) is kept.  Iterating
groups row-wise is sound because each row is written only from its own
group's first labelled row, which pass 1 never modifies before reading. -/
def pass1Cells (cs : List Cells) (x : Cells) : Cells :=
  match x.cluster with
  | none => x
  | some c =>
    let g := groupOf cs c
    if g.length ≤ 1 then x
    else
      match g.find? (fun y => y.catLabel.isSome) with
      | none => x
      | some src =>
        let x1 := if x.catId = none then { x with catId := src.catId } else x
        if x.catLabel = none then { x1 with catLabel := src.catLabel } else x1

/-- Whether pass 1 reaches the `for idx in group.index` loop for this row:
its group has more than one member and some member has a non-missing
`Category Label` (`rows_processed` is incremented exactly there). -/
def pass1Touched (cs : List Cells) (x : Cells) : Bool :=
  match x.cluster with
  | none => false
  | some c =>
    let g := groupOf cs c
    decide (1 < g.length) && g.any (fun y => y.catLabel.isSome)

/-- Value of `rows_processed` contributed by pass 1. -/
def pass1RowsProcessed (cs : List Cells) : Nat :=
  (cs.filter (pass1Touched cs)).length

/-- Value of `enrichment_count` contributed by pass 1: one per missing
`Category ID` cell and one per missing `Category Label` cell in every group
that pass 1 touches (the source increments once per `df.at` write). -/
def pass1Fills (cs : List Cells) : Nat :=
  (cs.map (fun x =>
    if pass1Touched cs x then
      (if x.catId = none then 1 else 0) + (if x.catLabel = none then 1 else 0)
    else 0)).sum

/-- Pass 2 of `_apply_enrichments_fallback` (residual lookup) on one row,
returning the new cells, the `rows_processed` increment and the
`enrichment_count` increment.  Mirrors the source: rows with both category
cells present are skipped; a lookup exception (`lookup _ = none`) is caught
per-row and skipped; otherwise each of the two cells is filled only when the
corresponding regex matched and the cell is still missing. -/
def pass2Cells (lookup : Lookup) (c : Cells) : Cells × Nat × Nat :=
  if c.catId = none ∨ c.catLabel = none then
    match lookup c.title with
    | none => (c, 1, 0)
    | some m =>
      let c1 := if m.1.isSome ∧ c.catId = none then { c with catId := m.1 } else c
      let n1 : Nat := if m.1.isSome ∧ c.catId = none then 1 else 0
      let c2 := if m.2.isSome ∧ c.catLabel = none then { c1 with catLabel := m.2 } else c1
      let n2 : Nat := if m.2.isSome ∧ c.catLabel = none then 1 else 0
      (c2, 1, n1 + n2)
  else (c, 0, 0)

/-- Pass 2 over the whole table (`for idx, row in df.iterrows()`), with the
two counters accumulated. -/
def pass2 (lookup : Lookup) : List Row → List Row × Nat × Nat
  | [] => ([], 0, 0)
  | r :: rest =>
    let p := pass2Cells lookup r.cells
    let q := pass2 lookup rest
    ({ r with cells := p.1 } :: q.1, p.2.1 + q.2.1, p.2.2 + q.2.2)

/-- Outcome of `_apply_enrichments_fallback`: the saved table, the two
counters, and the exception (if any) caught by the method's own
`except` block. -/
structure FallbackResult where
  table : Table
  rowsProcessed : Nat
  cellsFilled : Nat
  innerError : Option String
  deriving DecidableEq

/-- The whole of `_apply_enrichments_fallback`.  The method receives
`self.category_columns` but never reads it, which is why `categoryColumns`
is an unused parameter here exactly as in the source.  When the
`Cluster ID` column is absent, `df.groupby('Cluster ID')` raises before any
cell is written; the surrounding `try` catches the exception, logs it, and
the unmodified frame is still written with `df.to_csv`. -/
def applyEnrichmentsFallback (categoryColumns : List String) (lookup : Lookup)
    (t : Table) : FallbackResult :=
  if t.hasCluster then
    let cs := t.rows.map Row.cells
    let rows1 := t.rows.map (fun r => { r with cells := pass1Cells cs r.cells })
    let q := pass2 lookup rows1
    ⟨⟨t.hasCluster, q.1⟩, pass1RowsProcessed cs + q.2.1, pass1Fills cs + q.2.2, none⟩
  else
    ⟨t, 0, 0, some "KeyError: Cluster ID"⟩

/-- Every category cell of the table is already non-missing. -/
def fullyFilled (t : Table) : Bool :=
  t.rows.all (fun r => r.cells.catId.isSome && r.cells.catLabel.isSome)

/-- In-memory state of `ProgressTracker` (`utils/progress_tracker.py`);
`task_id`, `start_time` and the derived `elapsed_time` are omitted because
no claim is about them. -/
structure TrackerState where
  status : String
  progress : ℚ
  message : String
  result : Option String
  error : Option String
  deriving DecidableEq

/-- `ProgressTracker.__init__`: the state persisted when the tracker is
created. -/
def TrackerState.init : TrackerState :=
  ⟨"initializing", 0, "Starting task...", none, none⟩

/-- `ProgressTracker.update`: progress clamped to `[0, 1]` via
`min(max(progress, 0.0), 1.0)`; message and status overwritten. -/
def TrackerState.update (st : TrackerState) (p : ℚ) (m s : String) : TrackerState :=
  { st with progress := min (max p 0) 1, message := m, status := s }

/-- `ProgressTracker.complete`. -/
def TrackerState.complete (st : TrackerState) (res : String) : TrackerState :=
  { st with
    progress := 1
    status := "completed"
    message := "Task completed successfully"
    result := some res }

/-- `ProgressTracker.fail`: status, message and error change; progress is
left as it was. -/
def TrackerState.fail (st : TrackerState) (e : String) : TrackerState :=
  { st with status := "failed", message := "Task failed: " ++ e, error := some e }

/-- A tracker together with the sequence of `progress` values persisted by
`_save_state`, in write order (each mutating operation persists once). -/
structure TrackerLog where
  state : TrackerState
  trace : List ℚ

/-- Tracker construction persists the initial record. -/
def TrackerLog.init : TrackerLog :=
  ⟨TrackerState.init, [TrackerState.init.progress]⟩

/-- `update` followed by its persistence. -/
def TrackerLog.update (L : TrackerLog) (p : ℚ) (m s : String) : TrackerLog :=
  let st := L.state.update p m s
  ⟨st, L.trace ++ [st.progress]⟩

/-- `complete` followed by its persistence. -/
def TrackerLog.complete (L : TrackerLog) (res : String) : TrackerLog :=
  let st := L.state.complete res
  ⟨st, L.trace ++ [st.progress]⟩

/-- `fail` followed by its persistence. -/
def TrackerLog.fail (L : TrackerLog) (e : String) : TrackerLog :=
  let st := L.state.fail e
  ⟨st, L.trace ++ [st.progress]⟩

/-- The environment one run of `process_file` (`backend/main.py`) interacts
with.  `kickoff` is the delegated enrichment attempt (`crew.kickoff()`):
`.error e` models it raising with text `e`.  `artifactExists` is the
`os.path.exists(self.output_csv_path)` check after the attempt, and
`agentArtifact` the (opaque) file the agents wrote when it is `true`.
`readInput` is the `pd.read_csv` at the head of the fallback, `saveError`
a failure of the final `df.to_csv` (`some e` models it raising), `lookup`
the search tool, and `outputPath` the value of `self.output_csv_path`. -/
structure CrewEnv where
  categoryColumns : List String
  kickoff : Except String Unit
  artifactExists : Bool
  agentArtifact : Table
  readInput : Except String Table
  saveError : Option String
  lookup : Lookup
  outputPath : String

/-- One run of `process_file` (`backend/main.py`) around
`CSVEnrichmentCrew.run` (`agents/csv_enrichment_crew.py`): the tracker
updates in source order, the delegated attempt, the artifact check, the
fallback when no artifact appeared, and the terminal `complete`/`fail`.
Any exception escaping `crew.run()` is caught by `process_file`'s
`except`, which calls `tracker.fail(str(e))`.  Returns the final tracker
log and the output artifact (`none` when the job failed). -/
def processFile (env : CrewEnv) : TrackerLog × Option Table :=
  let L1 := TrackerLog.init.update 0.05 "Starting CSV enrichment process..." "processing"
  let L2 := (((L1.update 0.1 "Initializing CSV enrichment crew" "processing").update
    0.2 "Creating tasks" "processing").update 0.4 "Creating crew" "processing").update
    0.5 "Running crew" "processing"
  match env.kickoff with
  | .error e => (L2.fail e, none)
  | .ok _ =>
    let L3 := L2.update 0.9 "Finalizing results" "processing"
    if env.artifactExists then
      ((L3.update 1.0 "CSV enrichment complete" "processing").complete env.outputPath,
        some env.agentArtifact)
    else
      match env.readInput with
      | .error e => (L3.fail e, none)
      | .ok t =>
        let fb := applyEnrichmentsFallback env.categoryColumns env.lookup t
        match env.saveError with
        | some e => (L3.fail e, none)
        | none =>
          ((L3.update 1.0 "CSV enrichment complete" "processing").complete env.outputPath,
            some fb.table)

/-- The JSON text `_save_state` writes for a record (the fields not
modelled in `TrackerState` are omitted). -/
def serializeState (st : TrackerState) : String :=
  "\x7b\"status\": \"" ++ st.status ++ "\", \"progress\": " ++ toString st.progress
    ++ ", \"message\": \"" ++ st.message ++ "\"\x7d"

/-- Content of the record file after a `_save_state` whose write completes:
`open(file_path, "w")` truncates the file and `json.dump` writes the new
record.  The previous content plays no part. -/
def saveStateComplete (st : TrackerState) : Option String :=
  some (serializeState st)

/-- Content of the record file after a `_save_state` whose write fails once
`open(file_path, "w")` has already truncated the file and `written`
characters have been flushed.  The source writes in place — there is no
temporary file or atomic rename — so the previous content is gone. -/
def saveStateCrashed (st : TrackerState) (written : Nat) : Option String :=
  some ((serializeState st).take written)

/-- The part of a persisted job record that the download endpoint reads. -/
structure StoredState where
  status : String
  result : Option String
  deriving DecidableEq

/-- Outcome of the `/tasks/{task_id}/download` endpoint: a `FileResponse`
or a raised `HTTPException` with its status code and detail. -/
inductive DownloadResult where
  | file (path : String)
  | httpError (code : Nat) (detail : String)
  deriving DecidableEq

/-- `download_file` (`backend/main.py`): membership in the in-memory
`active_tasks` map, then the persisted record, then the `completed` check,
then the artifact path (`if not output_file or not os.path.exists(...)`). -/
def downloadFile (activeTasks : List String) (getState : String → Option StoredState)
    (fileExists : String → Bool) (taskId : String) : DownloadResult :=
  if taskId ∈ activeTasks then
    match getState taskId with
    | none => DownloadResult.httpError 404 "Task state not found"
    | some st =>
      if st.status = "completed" then
        match st.result with
        | none => DownloadResult.httpError 404 "Output file not found"
        | some p =>
          if p = "" then DownloadResult.httpError 404 "Output file not found"
          else if fileExists p then DownloadResult.file p
          else DownloadResult.httpError 404 "Output file not found"
      else DownloadResult.httpError 400 "Task is not completed yet"
  else DownloadResult.httpError 404 "Task not found"

/-- Whether the character list `sub` is an initial segment of `l`. -/
def listStartsWith : List Char → List Char → Bool
  | _, [] => true
  | [], _ :: _ => false
  | a :: as, b :: bs => a == b && listStartsWith as bs

/-- Whether `sub` occurs contiguously inside `l`. -/
def listHasSub : List Char → List Char → Bool
  | [], sub => listStartsWith [] sub
  | a :: as, sub => listStartsWith (a :: as) sub || listHasSub as sub

/-- Python's `sub in s` substring test. -/
def containsSubstring (s sub : String) : Bool :=
  listHasSub s.data sub.data

/-- Body of the retry `while` loop of `run`
(`data/csv_enrichment_crew.py`): `attempt n` is the `n`-th
`crew.kickoff()` (plus result application), `rc` the current value of
`retry_count`, and `fuel = max_retries - retry_count` (the loop guard
`retry_count < max_retries` makes `fuel = 0` unreachable).  On an
exception, `retry_count` is incremented; when the message contains
`"overloaded_error"` and `retry_count < max_retries` the loop sleeps
`5 * retry_count` seconds and retries, otherwise it re-raises.  The second
component collects the sleep durations in order. -/
def retryGo (attempt : Nat → Except String Unit) : Nat → Nat → Except String Unit × List Nat
  | 0, _ => (.error "unreachable: loop guard", [])
  | fuel + 1, rc =>
    match attempt (rc + 1) with
    | .ok r => (.ok r, [])
    | .error e =>
      if containsSubstring e "overloaded_error" && decide (rc + 1 < 3) then
        let rest := retryGo attempt fuel (rc + 1)
        (rest.1, 5 * (rc + 1) :: rest.2)
      else (.error e, [])

/-- The retry loop of `run` (`data/csv_enrichment_crew.py`) with
`max_retries = 3`, `retry_count = 0`. -/
def runWithRetry (attempt : Nat → Except String Unit) : Except String Unit × List Nat :=
  retryGo attempt 3 0

/-- A table with no rows (used as an opaque agent artifact placeholder). -/
def emptyTable : Table := ⟨true, []⟩

/-- A row of cluster `A` whose `Category ID` is present but whose
`Category Label` is missing. -/
def c1RowA : Cells := ⟨some "A", some "prodA", some "7", none⟩

/-- A second row of cluster `A` with both category cells missing. -/
def c1RowB : Cells := ⟨some "A", some "prodB", none, none⟩

/-- A two-row group whose first row has both category cells present and
whose second row has neither. -/
def c1FillRows : List Cells :=
  [⟨some "A", some "q1", some "7", some "boots"⟩, ⟨some "A", some "q2", none, none⟩]

/-- An input file that has no `Cluster ID` column: `df.groupby` raises a
`KeyError` inside the fallback's `try` block. -/
def noClusterTable : Table :=
  ⟨false, [⟨⟨none, some "widget", none, none⟩, []⟩]⟩

/-- A job whose delegated attempt runs without raising but produces no
artifact, and whose input table makes the fallback's own processing raise. -/
def c2Env : CrewEnv :=
  ⟨["Category ID", "Category Label"], .ok (), false, emptyTable,
    .ok noClusterTable, none, fun _ => none, "data/enriched_out.csv"⟩

/-- The specification's four-row scenario: grouping keys `[A, A, B, B]`,
category (`Category Label`) values `[shoes, missing, missing, hats]`; the
`Category ID` column is fully present so that only the scenario's single
category column has missing cells. -/
def c6Table : Table :=
  ⟨true,
    [⟨⟨some "A", some "p1", some "1", some "shoes"⟩, []⟩,
     ⟨⟨some "A", some "p2", some "2", none⟩, []⟩,
     ⟨⟨some "B", some "p3", some "3", none⟩, []⟩,
     ⟨⟨some "B", some "p4", some "4", some "hats"⟩, []⟩]⟩

/-- The expected table after the scenario's group propagation: row 2 got
`shoes` from row 1 and row 3 got `hats` from row 4. -/
def c6Expected : Table :=
  ⟨true,
    [⟨⟨some "A", some "p1", some "1", some "shoes"⟩, []⟩,
     ⟨⟨some "A", some "p2", some "2", some "shoes"⟩, []⟩,
     ⟨⟨some "B", some "p3", some "3", some "hats"⟩, []⟩,
     ⟨⟨some "B", some "p4", some "4", some "hats"⟩, []⟩]⟩

/-- A one-row table (its own cluster, categories missing) with product
title `titleA`. -/
def c10TableA : Table :=
  ⟨true, [⟨⟨some "X", some "titleA", none, none⟩, [some "other"]⟩]⟩

/-- The same table except for the `Product Title` cell. -/
def c10TableB : Table :=
  ⟨true, [⟨⟨some "X", some "titleB", none, none⟩, [some "other"]⟩]⟩

/-- A search tool that finds a category for `titleA` and raises for every
other query. -/
def c10Lookup : Lookup :=
  fun q => if q = some "titleA" then some (some "9", some "found") else none

/-- A fully filled one-row table, for witnesses. -/
def filledTable : Table :=
  ⟨true, [⟨⟨some "A", some "p", some "1", some "shoes"⟩, []⟩]⟩

/-- A job whose delegated attempt raises. -/
def c7Env : CrewEnv :=
  ⟨["Category ID", "Category Label"], .error "overloaded_error: boom", false,
    emptyTable, .ok c6Table, none, fun _ => none, "data/enriched_out.csv"⟩

/-- A job whose delegated attempt succeeds but leaves no artifact and whose
fallback input read fails. -/
def c2ReadFailEnv : CrewEnv :=
  ⟨["Category ID", "Category Label"], .ok (), false, emptyTable,
    .error "FileNotFoundError: input.csv", none, fun _ => none, "data/enriched_out.csv"⟩

/-- An attempt function whose every call raises an overloaded error. -/
def alwaysOverloaded : Nat → Except String Unit :=
  fun n => .error ("Error code: 529 overloaded_error attempt " ++ toString n)

/-- A persisted-state reader knowing a single completed job `job1`. -/
def wStates : String → Option StoredState :=
  fun tid => if tid = "job1" then some ⟨"completed", some "out.csv"⟩ else none

theorem pass2_fst (lookup : Lookup) (rows : List Row) :
    (pass2 lookup rows).1
      = rows.map (fun r => { r with cells := (pass2Cells lookup r.cells).1 }) := by
  induction rows with
  | nil => rfl
  | cons r rest ih => simp [pass2, ih]

theorem pass1Cells_preserves_catId (cs : List Cells) (x : Cells)
    (h : x.catId.isSome = true) : (pass1Cells cs x).catId = x.catId := by
  obtain ⟨cl, ti, ci, la⟩ := x
  cases ci with
  | none => simp at h
  | some v =>
    cases cl with
    | none => rfl
    | some c =>
      simp only [pass1Cells]
      split
      · rfl
      · cases hf : (groupOf cs c).find? (fun y => y.catLabel.isSome) with
        | none => rfl
        | some src =>
          simp only [hf]
          split <;> simp

theorem pass1Cells_preserves_catLabel (cs : List Cells) (x : Cells)
    (h : x.catLabel.isSome = true) : (pass1Cells cs x).catLabel = x.catLabel := by
  obtain ⟨cl, ti, ci, la⟩ := x
  cases la with
  | none => simp at h
  | some v =>
    cases cl with
    | none => rfl
    | some c =>
      simp only [pass1Cells]
      split
      · rfl
      · cases hf : (groupOf cs c).find? (fun y => y.catLabel.isSome) with
        | none => rfl
        | some src =>
          simp only [hf]
          split
          · simp_all
          · split <;> rfl

theorem pass2Cells_preserves_catId (lookup : Lookup) (x : Cells)
    (h : x.catId.isSome = true) : (pass2Cells lookup x).1.catId = x.catId := by
  have hne : ¬ x.catId = none := by cases hx : x.catId <;> simp [hx] at h ⊢
  unfold pass2Cells
  split
  · cases lookup x.title with
    | none => rfl
    | some m =>
      simp only [hne, and_false, if_false]
      split <;> rfl
  · rfl

theorem pass2Cells_preserves_catLabel (lookup : Lookup) (x : Cells)
    (h : x.catLabel.isSome = true) : (pass2Cells lookup x).1.catLabel = x.catLabel := by
  have hne : ¬ x.catLabel = none := by cases hx : x.catLabel <;> simp [hx] at h ⊢
  unfold pass2Cells
  split
  · cases lookup x.title with
    | none => rfl
    | some m =>
      simp only
      split
      · exact absurd (by assumption : m.2.isSome = true ∧ x.catLabel = none).2 hne
      · split <;> rfl
  · rfl

theorem pass1Cells_id_of_filled (cs : List Cells) (x : Cells)
    (h1 : x.catId.isSome = true) (h2 : x.catLabel.isSome = true) :
    pass1Cells cs x = x := by
  have hne1 : ¬ x.catId = none := by cases hx : x.catId <;> simp [hx] at h1 ⊢
  have hne2 : ¬ x.catLabel = none := by cases hx : x.catLabel <;> simp [hx] at h2 ⊢
  unfold pass1Cells
  cases x.cluster with
  | none => rfl
  | some c =>
    simp only
    split
    · rfl
    · cases hf : (groupOf cs c).find? (fun y => y.catLabel.isSome) with
      | none => rfl
      | some src => simp [hne1, hne2]

theorem pass2Cells_id_of_filled (lookup : Lookup) (x : Cells)
    (h1 : x.catId.isSome = true) (h2 : x.catLabel.isSome = true) :
    pass2Cells lookup x = (x, 0, 0) := by
  have hne1 : ¬ x.catId = none := by cases hx : x.catId <;> simp [hx] at h1 ⊢
  have hne2 : ¬ x.catLabel = none := by cases hx : x.catLabel <;> simp [hx] at h2 ⊢
  unfold pass2Cells
  split
  · exact absurd (by assumption) (by simp [hne1, hne2])
  · rfl

theorem fallback_rows_of_hasCluster (cols : List String) (lookup : Lookup) (t : Table)
    (h : t.hasCluster = true) :
    (applyEnrichmentsFallback cols lookup t).table.rows
      = t.rows.map (fun r =>
          { r with cells :=
              (pass2Cells lookup (pass1Cells (t.rows.map Row.cells) r.cells)).1 }) := by
  simp [applyEnrichmentsFallback, h, pass2_fst, List.map_map, Function.comp]

theorem map_id_of_eq {α : Type} (l : List α) (f : α → α) (h : ∀ a ∈ l, f a = a) :
    l.map f = l := by
  induction l with
  | nil => rfl
  | cons a as ih =>
    simp only [List.map_cons, h a (by simp)]
    rw [ih (fun b hb => h b (by simp [hb]))]

/-- C6: on the table with grouping keys `[A, A, B, B]` and category values
`[shoes, missing, missing, hats]`, group propagation fills row 2 with
`shoes` and row 3 with `hats`, exactly 2 cells are filled, and the
cells-filled counter reports 2. -/
theorem scenario_four_rows_fills_two :
    applyEnrichmentsFallback ["Category ID", "Category Label"] (fun _ => none) c6Table
      = ⟨c6Expected, 4, 2, none⟩ := by
  decide

/-- C1 counterexample: in the two-row group `A` below, a member
(`c1RowA`) has a non-missing value for the category column `Category ID`,
yet the group-propagation pass leaves the other member (`c1RowB`)
completely unchanged — its `Category ID` stays missing — because the pass
selects its source row by `Category Label` alone and every label in the
group is missing. -/
theorem pass1_ignores_catId_only_groups :
    1 < (groupOf [c1RowA, c1RowB] "A").length
    ∧ c1RowA.cluster = some "A"
    ∧ c1RowB.cluster = some "A"
    ∧ c1RowA.catId.isSome = true
    ∧ pass1Cells [c1RowA, c1RowB] c1RowB = c1RowB
    ∧ c1RowB.catId = none := by
  decide

/-- C1 (amended): group propagation keys on `Category Label`.  For a row of
a group with more than one member: if some member has a non-missing
`Category Label`, the first such member (in original row order) exists, and
after the pass the row's `Category Label` is non-missing — it keeps its own
value when it had one and otherwise receives that first labelled member's
`Category Label` (its `Category ID`, not stated here, is copied from that
same member rather than from the first non-missing `Category ID`).  Rows of
groups with at most one member are left entirely unchanged. -/
theorem pass1_label_propagation (cs : List Cells) (x : Cells) (c : String)
    (hc : x.cluster = some c) :
    ((groupOf cs c).any (fun y => y.catLabel.isSome) = true →
      ((groupOf cs c).find? (fun y => y.catLabel.isSome)).isSome = true)
    ∧ (1 < (groupOf cs c).length →
        ∀ src, (groupOf cs c).find? (fun y => y.catLabel.isSome) = some src →
          src.catLabel.isSome = true
          ∧ (pass1Cells cs x).catLabel
              = (if x.catLabel = none then src.catLabel else x.catLabel)
          ∧ (pass1Cells cs x).catLabel.isSome = true
          ∧ (pass1Cells cs x).catId
              = (if x.catId = none then src.catId else x.catId))
    ∧ ((groupOf cs c).any (fun y => y.catLabel.isSome) = false → pass1Cells cs x = x)
    ∧ ((groupOf cs c).length ≤ 1 → pass1Cells cs x = x) := by
  refine ⟨?_, ?_, ?_, ?_⟩
  · intro h
    rcases List.any_eq_true.mp h with ⟨y, hy, hp⟩
    exact List.find?_isSome.mpr ⟨y, hy, hp⟩
  · intro hlen src hf
    have hsrc0 := @List.find?_some _ (fun y => y.catLabel.isSome) src (groupOf cs c) hf
    have hsrc : src.catLabel.isSome = true := hsrc0
    have hnle : ¬ (groupOf cs c).length ≤ 1 := by omega
    have hval : (pass1Cells cs x).catLabel
        = (if x.catLabel = none then src.catLabel else x.catLabel) := by
      unfold pass1Cells
      rw [hc]
      simp only [hnle, if_false, hf]
      by_cases hl : x.catLabel = none
      · simp only [hl, if_true]
      · simp only [hl, if_false]
        split <;> rfl
    have hid : (pass1Cells cs x).catId
        = (if x.catId = none then src.catId else x.catId) := by
      unfold pass1Cells
      rw [hc]
      simp only [hnle, if_false, hf]
      by_cases hi : x.catId = none
      · simp only [hi, if_true]
        split <;> rfl
      · simp only [hi, if_false]
        split <;> rfl
    refine ⟨hsrc, hval, ?_, hid⟩
    rw [hval]
    by_cases hl : x.catLabel = none
    · simpa [hl] using hsrc
    · simp only [hl, if_false]
      cases hx : x.catLabel with
      | none => exact absurd hx hl
      | some v => rfl
  · intro hany
    have hfn : (groupOf cs c).find? (fun y => y.catLabel.isSome) = none := by
      rw [List.find?_eq_none]
      intro a ha hp
      have hsome : (groupOf cs c).any (fun y => y.catLabel.isSome) = true :=
        List.any_eq_true.mpr ⟨a, ha, hp⟩
      rw [hany] at hsome
      exact absurd hsome (by simp)
    unfold pass1Cells
    rw [hc]
    by_cases hle : (groupOf cs c).length ≤ 1
    · simp only [hle, if_true]
    · simp only [hle, if_false, hfn]
  · intro hle
    unfold pass1Cells
    rw [hc]
    simp only [hle, if_true]

/-- Witness for `pass1_label_propagation`: in the specification's scenario
table, row 2 of group `A` receives the label `shoes` of row 1 and keeps its
own `Category ID`; in the group `c1FillRows` the second row receives both
the `Category ID` and the `Category Label` of the first; and the all-labels-
missing group `[c1RowA, c1RowB]` is left unchanged. -/
theorem pass1_label_propagation_witness :
    (pass1Cells (c6Table.rows.map Row.cells) ⟨some "A", some "p2", some "2", none⟩).catLabel
      = some "shoes"
    ∧ (pass1Cells (c6Table.rows.map Row.cells) ⟨some "A", some "p2", some "2", none⟩).catId
      = some "2"
    ∧ (pass1Cells c1FillRows ⟨some "A", some "q2", none, none⟩).catId = some "7"
    ∧ (pass1Cells c1FillRows ⟨some "A", some "q2", none, none⟩).catLabel = some "boots"
    ∧ pass1Cells [c1RowA, c1RowB] c1RowB = c1RowB := by
  have h := pass1_label_propagation (c6Table.rows.map Row.cells)
    ⟨some "A", some "p2", some "2", none⟩ "A" rfl
  have h2 := h.2.1 (by decide) ⟨some "A", some "p1", some "1", some "shoes"⟩ (by decide)
  have g := pass1_label_propagation c1FillRows ⟨some "A", some "q2", none, none⟩ "A" rfl
  have g2 := g.2.1 (by decide) ⟨some "A", some "q1", some "7", some "boots"⟩ (by decide)
  have k := pass1_label_propagation [c1RowA, c1RowB] c1RowB "A" rfl
  exact ⟨by simpa using h2.2.1, by simpa using h2.2.2.2,
    by simpa using g2.2.2.2, by simpa using g2.2.1, k.2.2.1 (by decide)⟩

/-- C4: the tracker clamps every written progress value to `[0, 1]`
(`min(max(progress, 0.0), 1.0)`), and over one whole run of `process_file`
— whichever of its paths is taken — the sequence of progress values
persisted by the tracker is monotonically non-decreasing and lies in
`[0, 1]`. -/
theorem tracker_progress_clamped_monotone :
    (∀ (st : TrackerState) (p : ℚ) (m s : String),
      0 ≤ (st.update p m s).progress ∧ (st.update p m s).progress ≤ 1)
    ∧ (∀ env : CrewEnv,
        ((processFile env).1.trace).Chain' (· ≤ ·)
        ∧ ∀ x ∈ (processFile env).1.trace, 0 ≤ x ∧ x ≤ 1) := by
  constructor
  · intro st p m s
    exact ⟨le_min (le_max_right p 0) zero_le_one, min_le_right _ _⟩
  · intro env
    obtain ⟨cols, kick, art, ag, rd, sv, lk, op⟩ := env
    cases kick with
    | error e =>
      simp only [processFile, TrackerLog.init, TrackerLog.update, TrackerLog.fail,
        TrackerState.init, TrackerState.update, TrackerState.fail]
      norm_num [List.chain'_cons, List.forall_mem_cons, min_def, max_def]
    | ok u =>
      cases art with
      | true =>
        simp only [processFile, TrackerLog.init, TrackerLog.update, TrackerLog.complete,
          TrackerState.init, TrackerState.update, TrackerState.complete, if_true]
        norm_num [List.chain'_cons, List.forall_mem_cons, min_def, max_def]
      | false =>
        cases rd with
        | error e =>
          simp only [processFile, TrackerLog.init, TrackerLog.update, TrackerLog.fail,
            TrackerState.init, TrackerState.update, TrackerState.fail, if_false]
          norm_num [List.chain'_cons, List.forall_mem_cons, min_def, max_def]
        | ok t =>
          cases sv with
          | some e =>
            simp only [processFile, TrackerLog.init, TrackerLog.update, TrackerLog.fail,
              TrackerState.init, TrackerState.update, TrackerState.fail, if_false]
            norm_num [List.chain'_cons, List.forall_mem_cons, min_def, max_def]
          | none =>
            simp only [processFile, TrackerLog.init, TrackerLog.update, TrackerLog.complete,
              TrackerState.init, TrackerState.update, TrackerState.complete, if_false]
            norm_num [List.chain'_cons, List.forall_mem_cons, min_def, max_def]

/-- Witness for `tracker_progress_clamped_monotone`: the initial progress
value 0, written during a concrete run, lies in `[0, 1]`. -/
theorem tracker_progress_clamped_monotone_witness : (0:ℚ) ≤ 0 ∧ (0:ℚ) ≤ 1 :=
  (tracker_progress_clamped_monotone.2 c2Env).2 0 (by decide)

theorem Table.ext' (a b : Table) (h1 : a.hasCluster = b.hasCluster)
    (h2 : a.rows = b.rows) : a = b := by
  cases a
  cases b
  simp_all

theorem fallback_table_hasCluster (cols : List String) (lookup : Lookup) (t : Table) :
    (applyEnrichmentsFallback cols lookup t).table.hasCluster = t.hasCluster := by
  unfold applyEnrichmentsFallback
  split <;> rfl

theorem fallback_eq_of_hasCluster (cols : List String) (lookup : Lookup) (t : Table)
    (h : t.hasCluster = true) :
    applyEnrichmentsFallback cols lookup t
      = ⟨⟨true, (pass2 lookup (t.rows.map (fun r =>
            { r with cells := pass1Cells (t.rows.map Row.cells) r.cells }))).1⟩,
         pass1RowsProcessed (t.rows.map Row.cells)
           + (pass2 lookup (t.rows.map (fun r =>
               { r with cells := pass1Cells (t.rows.map Row.cells) r.cells }))).2.1,
         pass1Fills (t.rows.map Row.cells)
           + (pass2 lookup (t.rows.map (fun r =>
               { r with cells := pass1Cells (t.rows.map Row.cells) r.cells }))).2.2,
         none⟩ := by
  unfold applyEnrichmentsFallback
  rw [h]
  exact if_pos rfl

/-- C3: the fallback never writes to a category cell that already holds a
non-missing value; on a table whose category cells are all non-missing it
changes no cell, so running it twice on such a table is a no-op. -/
theorem fallback_never_overwrites (cols : List String) (lookup : Lookup) (t : Table) :
    (∀ i r, t.rows.get? i = some r →
      ∃ r', (applyEnrichmentsFallback cols lookup t).table.rows.get? i = some r'
        ∧ r'.extra = r.extra
        ∧ (r.cells.catId.isSome = true → r'.cells.catId = r.cells.catId)
        ∧ (r.cells.catLabel.isSome = true → r'.cells.catLabel = r.cells.catLabel))
    ∧ (fullyFilled t = true → (applyEnrichmentsFallback cols lookup t).table = t)
    ∧ (fullyFilled t = true →
        (applyEnrichmentsFallback cols lookup
            ((applyEnrichmentsFallback cols lookup t).table)).table
          = (applyEnrichmentsFallback cols lookup t).table) := by
  have main : ∀ s : Table, fullyFilled s = true →
      (applyEnrichmentsFallback cols lookup s).table = s := by
    intro s hs
    cases hcl : s.hasCluster with
    | false =>
      unfold applyEnrichmentsFallback
      rw [hcl]
      simp
    | true =>
      have hall := List.all_eq_true.mp hs
      apply Table.ext' _ _ (by rw [fallback_table_hasCluster])
      rw [fallback_rows_of_hasCluster cols lookup s hcl]
      apply map_id_of_eq
      intro r hr
      have hb := hall r hr
      rw [Bool.and_eq_true] at hb
      have h1 : pass1Cells (s.rows.map Row.cells) r.cells = r.cells :=
        pass1Cells_id_of_filled _ _ hb.1 hb.2
      rw [h1, pass2Cells_id_of_filled lookup r.cells hb.1 hb.2]
  refine ⟨?_, main t, ?_⟩
  · intro i r hir
    cases hcl : t.hasCluster with
    | false =>
      refine ⟨r, ?_, rfl, fun _ => rfl, fun _ => rfl⟩
      unfold applyEnrichmentsFallback
      rw [hcl]
      simpa using hir
    | true =>
      refine ⟨{ r with cells :=
        (pass2Cells lookup (pass1Cells (t.rows.map Row.cells) r.cells)).1 }, ?_, rfl, ?_, ?_⟩
      · rw [fallback_rows_of_hasCluster cols lookup t hcl, List.get?_map, hir]
        rfl
      · intro h
        have h1 := pass1Cells_preserves_catId (t.rows.map Row.cells) r.cells h
        have h1s : (pass1Cells (t.rows.map Row.cells) r.cells).catId.isSome = true := by
          rw [h1]; exact h
        have h2 := pass2Cells_preserves_catId lookup _ h1s
        rw [h2, h1]
      · intro h
        have h1 := pass1Cells_preserves_catLabel (t.rows.map Row.cells) r.cells h
        have h1s : (pass1Cells (t.rows.map Row.cells) r.cells).catLabel.isSome = true := by
          rw [h1]; exact h
        have h2 := pass2Cells_preserves_catLabel lookup _ h1s
        rw [h2, h1]
  · intro hf
    rw [main t hf]
    exact main t hf

/-- Witness for `fallback_never_overwrites` on a concrete fully filled
table: the fallback leaves it unchanged, also when applied twice, and the
row's non-missing cells are preserved. -/
theorem fallback_never_overwrites_witness :
    (applyEnrichmentsFallback [] (fun _ => none) filledTable).table = filledTable
    ∧ (applyEnrichmentsFallback [] (fun _ => none)
        ((applyEnrichmentsFallback [] (fun _ => none) filledTable).table)).table
      = (applyEnrichmentsFallback [] (fun _ => none) filledTable).table
    ∧ (∃ r', (applyEnrichmentsFallback [] (fun _ => none) filledTable).table.rows.get? 0
          = some r'
        ∧ r'.extra = []
        ∧ (true = true → r'.cells.catId = some "1")
        ∧ (true = true → r'.cells.catLabel = some "shoes")) :=
  ⟨(fallback_never_overwrites [] (fun _ => none) filledTable).2.1 (by decide),
   (fallback_never_overwrites [] (fun _ => none) filledTable).2.2 (by decide),
   (fallback_never_overwrites [] (fun _ => none) filledTable).1 0
     ⟨⟨some "A", some "p", some "1", some "shoes"⟩, []⟩ rfl⟩

/-- C2 counterexample: an input table without a `Cluster ID` column makes
`df.groupby` raise inside the fallback's own processing, yet the job does
not end `failed`: the fallback catches the exception itself, still writes
the (unchanged) output file, and the runner records the job `completed`
with no error. -/
theorem fallback_inner_exception_completes :
    (applyEnrichmentsFallback ["Category ID", "Category Label"] (fun _ => none)
        noClusterTable).innerError = some "KeyError: Cluster ID"
    ∧ (processFile c2Env).1.state.status = "completed"
    ∧ (processFile c2Env).1.state.error = none
    ∧ (processFile c2Env).2 = some noClusterTable := by
  refine ⟨rfl, ?_, ?_, ?_⟩ <;> decide

/-- C2 (amended): an exception raised inside the fallback's enrichment
processing is caught inside the fallback itself; the output file is still
written and the runner completes the job (it is never reported through
`fail`).  Only an exception raised while reading the input CSV or writing
the output CSV propagates out of the fallback, and the runner then catches
it and reports the job `failed` through the tracker; in every case the
runner reaches a terminal state rather than crashing. -/
theorem fallback_exception_handling (env : CrewEnv) (t : Table) (e : String) :
    (env.kickoff = .ok () → env.artifactExists = false → env.readInput = .ok t →
      env.saveError = none →
        (processFile env).1.state.status = "completed"
        ∧ (processFile env).2
            = some (applyEnrichmentsFallback env.categoryColumns env.lookup t).table)
    ∧ (env.kickoff = .ok () → env.artifactExists = false → env.readInput = .error e →
        (processFile env).1.state.status = "failed"
        ∧ (processFile env).1.state.error = some e)
    ∧ (env.kickoff = .ok () → env.artifactExists = false → env.readInput = .ok t →
      env.saveError = some e →
        (processFile env).1.state.status = "failed"
        ∧ (processFile env).1.state.error = some e) := by
  refine ⟨?_, ?_, ?_⟩
  · intro hk ha hr hs
    simp [processFile, hk, ha, hr, hs, TrackerLog.update, TrackerLog.complete,
      TrackerState.complete]
  · intro hk ha hr
    simp [processFile, hk, ha, hr, TrackerLog.update, TrackerLog.fail, TrackerState.fail]
  · intro hk ha hr hs
    simp [processFile, hk, ha, hr, hs, TrackerLog.update, TrackerLog.fail, TrackerState.fail]

/-- Witness for `fallback_exception_handling`: the concrete job `c2Env`
(no artifact, readable input) completes with the fallback's output, and the
concrete job `c2ReadFailEnv` (input read raises) fails with the read
error recorded. -/
theorem fallback_exception_handling_witness :
    ((processFile c2Env).1.state.status = "completed"
      ∧ (processFile c2Env).2
          = some (applyEnrichmentsFallback c2Env.categoryColumns c2Env.lookup
              noClusterTable).table)
    ∧ ((processFile c2ReadFailEnv).1.state.status = "failed"
      ∧ (processFile c2ReadFailEnv).1.state.error = some "FileNotFoundError: input.csv") :=
  ⟨(fallback_exception_handling c2Env noClusterTable "").1 rfl rfl rfl rfl,
   (fallback_exception_handling c2ReadFailEnv noClusterTable
     "FileNotFoundError: input.csv").2.1 rfl rfl rfl⟩

theorem pass1Cells_cluster (cs : List Cells) (x : Cells) :
    (pass1Cells cs x).cluster = x.cluster := by
  obtain ⟨cl, ti, ci, la⟩ := x
  cases cl with
  | none => rfl
  | some c =>
    unfold pass1Cells
    simp only
    split
    · rfl
    · cases hf : (groupOf cs c).find? (fun y => y.catLabel.isSome) with
      | none => rfl
      | some src =>
        simp only [hf]
        split <;> split <;> rfl

theorem pass1Cells_title (cs : List Cells) (x : Cells) :
    (pass1Cells cs x).title = x.title := by
  obtain ⟨cl, ti, ci, la⟩ := x
  cases cl with
  | none => rfl
  | some c =>
    unfold pass1Cells
    simp only
    split
    · rfl
    · cases hf : (groupOf cs c).find? (fun y => y.catLabel.isSome) with
      | none => rfl
      | some src =>
        simp only [hf]
        split <;> split <;> rfl

theorem pass2Cells_cluster (lookup : Lookup) (x : Cells) :
    (pass2Cells lookup x).1.cluster = x.cluster := by
  obtain ⟨cl, ti, ci, la⟩ := x
  unfold pass2Cells
  split
  · cases lookup ti with
    | none => rfl
    | some m =>
      simp only
      split <;> split <;> rfl
  · rfl

theorem pass2Cells_title (lookup : Lookup) (x : Cells) :
    (pass2Cells lookup x).1.title = x.title := by
  obtain ⟨cl, ti, ci, la⟩ := x
  unfold pass2Cells
  split
  · cases lookup ti with
    | none => rfl
    | some m =>
      simp only
      split <;> split <;> rfl
  · rfl

theorem pass2_map_cells (lookup : Lookup) (rows rows' : List Row)
    (h : rows.map Row.cells = rows'.map Row.cells) :
    (pass2 lookup rows).1.map Row.cells = (pass2 lookup rows').1.map Row.cells
    ∧ (pass2 lookup rows).2 = (pass2 lookup rows').2 := by
  induction rows generalizing rows' with
  | nil =>
    cases rows' with
    | nil => exact ⟨rfl, rfl⟩
    | cons b bs => simp at h
  | cons a as ih =>
    cases rows' with
    | nil => simp at h
    | cons b bs =>
      simp only [List.map_cons, List.cons.injEq] at h
      obtain ⟨hab, hrest⟩ := h
      have hih := ih bs hrest
      refine ⟨?_, ?_⟩
      · simp only [pass2, List.map_cons, hab, hih.1]
      · simp only [pass2, hab, hih.2]

/-- C7: a job whose delegated attempt raises is caught by the runner: the
job reaches terminal status `failed` with the exception text stored in the
record's `error` field, no artifact is produced, and the fallback is not
invoked — the run's outcome is independent of everything the fallback
would consume (the input-file read and the search tool). -/
theorem delegated_exception_fails_job (env : CrewEnv) (e : String)
    (h : env.kickoff = .error e) :
    (processFile env).1.state.status = "failed"
    ∧ (processFile env).1.state.error = some e
    ∧ (processFile env).2 = none
    ∧ (∀ (lk : Lookup) (ri : Except String Table),
        processFile { env with lookup := lk, readInput := ri } = processFile env) := by
  refine ⟨?_, ?_, ?_, ?_⟩ <;>
    simp [processFile, h, TrackerLog.update, TrackerLog.fail, TrackerState.fail]

/-- Witness for `delegated_exception_fails_job`: the concrete job `c7Env`,
whose delegated attempt raises, ends failed with the exception text. -/
theorem delegated_exception_fails_job_witness :
    (processFile c7Env).1.state.status = "failed"
    ∧ (processFile c7Env).1.state.error = some "overloaded_error: boom" :=
  ⟨(delegated_exception_fails_job c7Env "overloaded_error: boom" rfl).1,
   (delegated_exception_fails_job c7Env "overloaded_error: boom" rfl).2.1⟩

/-- C8: the result boundary serves an artifact only for a job whose stored
status is `completed`; a known job that is not completed (still running or
failed) is rejected with a 400 error; an unknown job id — absent from the
in-memory task map, or with no persisted record — yields a 404 not-found
error rather than a crash. -/
theorem download_only_serves_completed (A : List String)
    (gs : String → Option StoredState) (fe : String → Bool) (tid p : String) :
    (downloadFile A gs fe tid = DownloadResult.file p →
      ∃ st, gs tid = some st ∧ st.status = "completed" ∧ st.result = some p ∧ fe p = true)
    ∧ (∀ st, tid ∈ A → gs tid = some st → st.status ≠ "completed" →
        downloadFile A gs fe tid = DownloadResult.httpError 400 "Task is not completed yet")
    ∧ (tid ∉ A → downloadFile A gs fe tid = DownloadResult.httpError 404 "Task not found")
    ∧ (tid ∈ A → gs tid = none →
        downloadFile A gs fe tid = DownloadResult.httpError 404 "Task state not found") := by
  refine ⟨?_, ?_, ?_, ?_⟩
  · intro hfile
    by_cases hA : tid ∈ A
    · cases hgs : gs tid with
      | none =>
        simp only [downloadFile, hA, if_true, hgs] at hfile
        exact absurd hfile (by simp)
      | some st =>
        by_cases hst : st.status = "completed"
        · cases hres : st.result with
          | none =>
            simp only [downloadFile, hA, if_true, hgs, hst, hres, if_pos rfl] at hfile
            exact absurd hfile (by simp)
          | some q =>
            by_cases hq : q = ""
            · simp only [downloadFile, hA, if_true, hgs, hst, hres, hq, if_pos rfl] at hfile
              exact absurd hfile (by simp)
            · by_cases hfe : fe q = true
              · simp only [downloadFile, hA, if_true, hgs, hst, hres, hq, hfe,
                  if_pos rfl, if_neg hq, if_true] at hfile
                have hqp : q = p := by
                  simpa [DownloadResult.file.injEq] using hfile
                exact ⟨st, rfl, hst, by rw [hres, hqp], by rw [← hqp]; exact hfe⟩
              · simp only [downloadFile, hA, if_true, hgs, hst, hres, hq,
                  if_pos rfl, if_neg hq, if_neg hfe] at hfile
                exact absurd hfile (by simp)
        · simp only [downloadFile, hA, if_true, hgs, hst, if_neg hst] at hfile
          exact absurd hfile (by simp)
    · simp only [downloadFile, hA, if_false] at hfile
      exact absurd hfile (by simp)
  · intro st hA hgs hst
    simp only [downloadFile, hA, if_true, hgs, if_neg hst]
  · intro hA
    simp only [downloadFile, hA, if_false]
  · intro hA hgs
    simp only [downloadFile, hA, if_true, hgs]

/-- Witness for `download_only_serves_completed`: serving the stored
artifact of the completed job `job1`, and rejecting an unknown id. -/
theorem download_only_serves_completed_witness :
    (∃ st, wStates "job1" = some st ∧ st.status = "completed"
      ∧ st.result = some "out.csv" ∧ (fun _ => true) "out.csv" = true)
    ∧ downloadFile ["job1"] wStates (fun _ => true) "nope"
        = DownloadResult.httpError 404 "Task not found" :=
  ⟨(download_only_serves_completed ["job1"] wStates (fun _ => true) "job1" "out.csv").1
      (by decide),
   (download_only_serves_completed ["job1"] wStates (fun _ => true) "nope" "x").2.2.1
      (by decide)⟩

/-- C9: when the delegated attempts keep raising `overloaded_error`, the
retry loop sleeps `5 × attempt-number` seconds before each retry (linear
backoff: 5 after attempt 1, 10 after attempt 2), stops at the fixed cap of
3 attempts, and re-raises the last error; a non-overloaded error is
re-raised immediately without retrying; and a kickoff error surfaces as a
`failed` job with no artifact, not as a fallback run. -/
theorem delegated_retry_linear_backoff (attempt : Nat → Except String Unit)
    (e1 e2 e3 : String) :
    (attempt 1 = .error e1 → attempt 2 = .error e2 → attempt 3 = .error e3 →
      containsSubstring e1 "overloaded_error" = true →
      containsSubstring e2 "overloaded_error" = true →
      runWithRetry attempt = (.error e3, [5 * 1, 5 * 2]))
    ∧ (attempt 1 = .error e1 → containsSubstring e1 "overloaded_error" = false →
      runWithRetry attempt = (.error e1, []))
    ∧ (∀ env : CrewEnv, env.kickoff = .error e1 →
        (processFile env).1.state.status = "failed" ∧ (processFile env).2 = none) := by
  refine ⟨?_, ?_, ?_⟩
  · intro h1 h2 h3 o1 o2
    simp [runWithRetry, retryGo, h1, h2, h3, o1, o2]
  · intro h1 o1
    simp [runWithRetry, retryGo, h1, o1]
  · intro env h
    constructor <;>
      simp [processFile, h, TrackerLog.update, TrackerLog.fail, TrackerState.fail]

/-- Witness for `delegated_retry_linear_backoff`: with every attempt
raising an overloaded error, the loop re-raises the third error after
sleeping 5 then 10 seconds. -/
theorem delegated_retry_linear_backoff_witness :
    runWithRetry alwaysOverloaded
      = (.error "Error code: 529 overloaded_error attempt 3", [5 * 1, 5 * 2]) :=
  (delegated_retry_linear_backoff alwaysOverloaded
    "Error code: 529 overloaded_error attempt 1"
    "Error code: 529 overloaded_error attempt 2"
    "Error code: 529 overloaded_error attempt 3").1 rfl rfl rfl (by decide) (by decide)

/-- C10 counterexample: two tables agreeing cell-for-cell on the
`Cluster ID`, `Category ID` and `Category Label` columns and on every other
cell except `Product Title` receive different category fills from the
fallback, because the residual-lookup pass reads `Product Title` as its
search query — so the fallback's reads are not confined to the two
category columns plus the grouping column. -/
theorem fallback_reads_product_title :
    (c10TableA.rows.map (fun r => (r.cells.cluster, r.cells.catId, r.cells.catLabel, r.extra))
      = c10TableB.rows.map (fun r => (r.cells.cluster, r.cells.catId, r.cells.catLabel, r.extra)))
    ∧ c10TableA.hasCluster = c10TableB.hasCluster
    ∧ ((applyEnrichmentsFallback [] c10Lookup c10TableA).table.rows.map
        (fun r => r.cells.catId)) = [some "9"]
    ∧ ((applyEnrichmentsFallback [] c10Lookup c10TableB).table.rows.map
        (fun r => r.cells.catId)) = [none] := by
  refine ⟨rfl, rfl, ?_, ?_⟩ <;> decide

/-- C10 (amended): the fallback writes only `Category ID` and
`Category Label` cells — row count, `Cluster ID`, `Product Title` and all
other cells are unchanged — and the supplied category-column list has no
effect at all; but beyond partitioning by `Cluster ID` and reading the two
category columns it also reads `Product Title` as the residual-lookup
query: its entire behaviour (category cells, both counters, the caught
error) is a function of exactly those four columns. -/
theorem fallback_frame_and_reads (cols cols' : List String) (lookup : Lookup)
    (t t' : Table) :
    ((applyEnrichmentsFallback cols lookup t).table.hasCluster = t.hasCluster
      ∧ (applyEnrichmentsFallback cols lookup t).table.rows.length = t.rows.length
      ∧ ∀ i r, t.rows.get? i = some r →
          ∃ r', (applyEnrichmentsFallback cols lookup t).table.rows.get? i = some r'
            ∧ r'.extra = r.extra ∧ r'.cells.cluster = r.cells.cluster
            ∧ r'.cells.title = r.cells.title)
    ∧ applyEnrichmentsFallback cols lookup t = applyEnrichmentsFallback cols' lookup t
    ∧ (t.hasCluster = t'.hasCluster → t.rows.map Row.cells = t'.rows.map Row.cells →
        ((applyEnrichmentsFallback cols lookup t).table.rows.map Row.cells
            = (applyEnrichmentsFallback cols lookup t').table.rows.map Row.cells
          ∧ (applyEnrichmentsFallback cols lookup t).rowsProcessed
              = (applyEnrichmentsFallback cols lookup t').rowsProcessed
          ∧ (applyEnrichmentsFallback cols lookup t).cellsFilled
              = (applyEnrichmentsFallback cols lookup t').cellsFilled
          ∧ (applyEnrichmentsFallback cols lookup t).innerError
              = (applyEnrichmentsFallback cols lookup t').innerError)) := by
  refine ⟨⟨fallback_table_hasCluster cols lookup t, ?_, ?_⟩, rfl, ?_⟩
  · cases hcl : t.hasCluster with
    | false =>
      unfold applyEnrichmentsFallback
      rw [hcl]
      simp
    | true =>
      rw [fallback_rows_of_hasCluster cols lookup t hcl, List.length_map]
  · intro i r hir
    cases hcl : t.hasCluster with
    | false =>
      refine ⟨r, ?_, rfl, rfl, rfl⟩
      unfold applyEnrichmentsFallback
      rw [hcl]
      simpa using hir
    | true =>
      refine ⟨{ r with cells :=
        (pass2Cells lookup (pass1Cells (t.rows.map Row.cells) r.cells)).1 }, ?_, rfl, ?_, ?_⟩
      · rw [fallback_rows_of_hasCluster cols lookup t hcl, List.get?_map, hir]
        rfl
      · rw [pass2Cells_cluster, pass1Cells_cluster]
      · rw [pass2Cells_title, pass1Cells_title]
  · intro hcl hcs
    cases hclt : t.hasCluster with
    | false =>
      have hclt' : t'.hasCluster = false := by rw [← hcl, hclt]
      unfold applyEnrichmentsFallback
      rw [hclt, hclt']
      simpa using hcs
    | true =>
      have hclt' : t'.hasCluster = true := by rw [← hcl, hclt]
      have hcomp : ∀ (rows : List Row) (cs : List Cells),
          (rows.map (fun r => { r with cells := pass1Cells cs r.cells })).map Row.cells
            = (rows.map Row.cells).map (pass1Cells cs) := by
        intro rows cs
        rw [List.map_map, List.map_map]
        rfl
      have hp2 := pass2_map_cells lookup
        (t.rows.map (fun r => { r with cells := pass1Cells (t.rows.map Row.cells) r.cells }))
        (t'.rows.map (fun r => { r with cells := pass1Cells (t'.rows.map Row.cells) r.cells }))
        (by rw [hcomp, hcomp, hcs])
      rw [fallback_eq_of_hasCluster cols lookup t hclt,
        fallback_eq_of_hasCluster cols lookup t' hclt']
      refine ⟨hp2.1, ?_, ?_, rfl⟩
      · show pass1RowsProcessed (t.rows.map Row.cells)
            + (pass2 lookup (t.rows.map (fun r =>
                { r with cells := pass1Cells (t.rows.map Row.cells) r.cells }))).2.1
          = pass1RowsProcessed (t'.rows.map Row.cells)
            + (pass2 lookup (t'.rows.map (fun r =>
                { r with cells := pass1Cells (t'.rows.map Row.cells) r.cells }))).2.1
        rw [hp2.2, hcs]
      · show pass1Fills (t.rows.map Row.cells)
            + (pass2 lookup (t.rows.map (fun r =>
                { r with cells := pass1Cells (t.rows.map Row.cells) r.cells }))).2.2
          = pass1Fills (t'.rows.map Row.cells)
            + (pass2 lookup (t'.rows.map (fun r =>
                { r with cells := pass1Cells (t'.rows.map Row.cells) r.cells }))).2.2
        rw [hp2.2, hcs]

/-- Witness for `fallback_frame_and_reads`: on the concrete table
`c10TableA` the fallback preserves the row's `Cluster ID`, `Product Title`
and extra cells, and two tables with identical four-column content get
identical results. -/
theorem fallback_frame_and_reads_witness :
    (∃ r', (applyEnrichmentsFallback [] c10Lookup c10TableA).table.rows.get? 0 = some r'
      ∧ r'.extra = [some "other"] ∧ r'.cells.cluster = some "X"
      ∧ r'.cells.title = some "titleA")
    ∧ ((applyEnrichmentsFallback [] c10Lookup c10TableA).table.rows.map Row.cells
        = (applyEnrichmentsFallback [] c10Lookup c10TableA).table.rows.map Row.cells) :=
  ⟨(fallback_frame_and_reads [] [] c10Lookup c10TableA c10TableA).1.2.2 0
      ⟨⟨some "X", some "titleA", none, none⟩, [some "other"]⟩ rfl,
   ((fallback_frame_and_reads [] [] c10Lookup c10TableA c10TableA).2.2 rfl rfl).1⟩

/-- C5: `_save_state` opens the record file with mode `w`, truncating it
in place before `json.dump` writes; a write that fails right after the
open leaves the stored content empty — the empty string is shorter than
the serialization of any tracker state, so the previously persisted record
is destroyed rather than left intact (no temporary file or atomic swap
exists in the source). -/
theorem saveState_truncation_loses_record :
    saveStateCrashed (TrackerState.init.update 0.5 "halfway" "processing") 0 = some ""
    ∧ saveStateComplete TrackerState.init = some (serializeState TrackerState.init)
    ∧ (∀ st : TrackerState, 0 < (serializeState st).length) := by
  refine ⟨by decide, rfl, ?_⟩
  intro st
  simp only [serializeState, String.length_append]
  have h : 0 < ("\x7b\"status\": \"" : String).length := by decide
  omega
